import Mathlib

/-!
Shallow embedding of the two remote-operation helpers of `Py_Utilities`:
`remote_operations` from `py_utilities/remote_operations/remote_linux_commands.py`
and `pick_port` from `py_utilities/remote_operations/pick_unused_port.py`.

The subprocess spawned by the code is modelled as an abstract `Session`
record providing the content of its streams (this is the mocked-session
frame the spec's testable properties are stated in); the pure control flow
that reads, filters, joins and raises on that content is translated
statement by statement from the Python source.
-/

set_option maxRecDepth 100000

namespace PyUtil

/-- Python's substring test `needle in hay` (also what `re.search` does for a
pattern with no metacharacter): the characters of `needle` occur contiguously
inside `hay`. -/
def occursIn (needle hay : String) : Bool :=
  decide (needle.toList <:+: hay.toList)

/-- Python's `'\n'.join(xs)` on a list of strings. -/
def joinLines (xs : List String) : String :=
  String.intercalate "\n" xs

/-- Python's `'\n'.join(s)` applied to a *string* `s`: iterating a string
yields its characters, so the join interleaves a newline between every pair
of adjacent characters. -/
def joinChars (s : String) : String :=
  String.intercalate "\n" (s.toList.map (fun c => c.toString))

/-- Python's `re.match(p, line)` for a pattern that is an alternation of two
literal strings: it anchors at the start of the line, so it succeeds exactly
when the line begins with one of the literals. -/
def startsWithLit (lit line : String) : Bool :=
  decide (lit.toList <+: line.toList)

example : joinChars "ab" = "a\nb" := by decide
example : occursIn "b" "abc" = true := by decide
example : occursIn "ab" "a\nb" = false := by decide
example : startsWithLit "x" "xy" = true := by decide
example : startsWithLit "x" " xy" = false := by decide

/-! ## remote_operations (remote_linux_commands.py) -/

/-- The abstract SSH session spawned by `subprocess.Popen`: the content its
streams would deliver to the program. `stdoutLines`/`stderrLines` are what
`stdout.readlines()` / `stderr.readlines()` return in non-tty mode (each
entry one line); `commResult`/`commError` are the two strings
`communicate()` returns in tty mode. -/
structure Session where
  stdoutLines : List String
  stderrLines : List String
  commResult : String
  commError : String
deriving DecidableEq, Repr

/-- The value `remote_operations` returns: in tty mode the first component of
`communicate()` (a single string), in non-tty mode the filtered list of
stdout lines. -/
inductive OutVal where
  | str (s : String)
  | lines (ls : List String)
deriving DecidableEq, Repr

/-- Outcome of one call of `remote_operations`: the lines written to the
session's stdin (line 83 `stdin.write('%s\n' % command)` for each command,
and in tty mode the `'logout\n'` passed to `communicate` on line 85), and
either the returned value or the message of the raised
`RemoteCommandError`. -/
structure RunOutcome where
  written : List String
  result : Except String OutVal
deriving Repr

/-- First benign-warning literal of the `re.match` alternation on line 93. -/
def warnTty : String := "Warning: no access to tty"

/-- Second benign-warning literal of the `re.match` alternation on line 93. -/
def warnJob : String := "Thus no job control in this shell"

/-- Whether a stdout line survives the loop of lines 91-96: it is appended to
`result` exactly when the anchored
`re.match('Warning: no access to tty|Thus no job control in this shell', line)`
fails, i.e. when the line begins with neither literal. -/
def keptLine (line : String) : Bool :=
  !(startsWithLit warnTty line || startsWithLit warnJob line)

/-- `remote_operations` of `remote_linux_commands.py` (lines 73-104), with the
spawned subprocess abstracted as `sess`. Control flow translated line by
line: tty mode writes the commands then `communicate('logout\n')` and, when
`catch_errors` and the error string is truthy (non-empty), raises
`'\n'.join(error)` — a char-wise join since `error` is a string. Non-tty
mode filters stdout lines matched by
`re.match('Warning: no access to tty|Thus no job control in this shell', line)`
(anchored at line start), then when `catch_errors`, reads stderr lines,
slices off `banner_size` of them when that is non-zero, and raises their
`'\n'.join` when any remain. -/
def remote_operations (commands : List String) (catch_errors tty_session : Bool)
    (banner_size : Nat) (sess : Session) : RunOutcome :=
  if tty_session then
    let written := commands.map (fun c => c ++ "\n") ++ ["logout\n"]
    let error := sess.commError
    if catch_errors && !(error = "") then
      { written := written, result := .error (joinChars error) }
    else
      { written := written, result := .ok (.str sess.commResult) }
  else
    let written := commands.map (fun c => c ++ "\n")
    let result := sess.stdoutLines.filter keptLine
    if catch_errors then
      let error := if banner_size ≠ 0 then sess.stderrLines.drop banner_size
                   else sess.stderrLines
      if !(error = []) then
        { written := written, result := .error (joinLines error) }
      else
        { written := written, result := .ok (.lines result) }
    else
      { written := written, result := .ok (.lines result) }

/-! ## pick_port (pick_unused_port.py) -/

/-- Python's `'%s' % host` for a host that is either `None` or a string. -/
def hostStr : Option String → String
  | none => "None"
  | some h => h

/-- The message of the `NoCommandFoundError` raised on lines 64-65 (the two
adjacent string literals concatenate). -/
def noCmdMsg (host : Option String) : String :=
  "netstats is not installed on the " ++ hostStr host ++
    " device. Please install it and try again"

/-- The exceptions an execution of `pick_port` can raise. `noCommandFound`
embeds `NoCommandFoundError` with its message; `typeErrorSearchOnList` is the
Python `TypeError` raised by `re.search(str(port), results)` on line 68,
whose second argument is the *list* `results` rather than the joined string
`str_results` — `re.search` requires a string. The declared `NoPortsFound`
class has no constructor here because no statement of the source raises
it. -/
inductive PickErr where
  | noCommandFound (msg : String)
  | typeErrorSearchOnList
deriving DecidableEq, Repr

/-- `pick_port` of `pick_unused_port.py` (lines 52-70) with the listener
listing (the `results` lines obtained on line 57 or 60) abstracted as input.
It joins the lines with `', '`, raises `NoCommandFoundError` when
`'command not found'` occurs in that join, and otherwise runs
`for port in range(port_min, port_max)`: the first iteration calls
`re.search(str(port), results)` on the list `results`, which raises
`TypeError`; only an empty range reaches `return None`. -/
def pick_port (host : Option String) (port_min port_max : Int)
    (results : List String) : Except PickErr (Option Int) :=
  let str_results := String.intercalate ", " results
  if occursIn "command not found" str_results then
    .error (.noCommandFound (noCmdMsg host))
  else
    if port_min < port_max then
      .error .typeErrorSearchOnList
    else
      .ok none

/-- Condition of line 54, `host is None or 'local' in host`, selecting the
local-subprocess branch over the `remote_operations` call. -/
def usesLocalBranch (host : Option String) : Bool :=
  match host with
  | none => true
  | some h => occursIn "local" h

/-! ## Inversion helpers for remote_operations -/

/-- In non-tty mode, a returned line list is exactly the stdout lines
surviving the benign-warning filter of lines 91-96. -/
theorem result_lines_eq (commands : List String) (catch_errors : Bool) (banner_size : Nat)
    (sess : Session) (ls : List String)
    (hres : (remote_operations commands catch_errors false banner_size sess).result
      = .ok (.lines ls)) :
    ls = sess.stdoutLines.filter keptLine := by
  cases catch_errors with
  | false =>
    simp [remote_operations] at hres
    exact hres.symm
  | true =>
    by_cases h0 : banner_size = 0
    · subst h0
      by_cases hb : sess.stderrLines = []
      · simp [remote_operations, hb] at hres
        exact hres.symm
      · simp [remote_operations, hb] at hres
    · by_cases hb : sess.stderrLines.drop banner_size = []
      · simp [remote_operations, h0, hb] at hres
        exact hres.symm
      · simp [remote_operations, h0, hb] at hres

/-- In non-tty mode with error-checking on, the message of a raised
`RemoteCommandError` is the newline-join of the stderr lines past the
banner. -/
theorem result_error_eq (commands : List String) (banner_size : Nat)
    (sess : Session) (msg : String)
    (hres : (remote_operations commands true false banner_size sess).result = .error msg) :
    msg = joinLines (sess.stderrLines.drop banner_size) := by
  by_cases h0 : banner_size = 0
  · subst h0
    by_cases hb : sess.stderrLines = []
    · simp [remote_operations, hb] at hres
    · simp [remote_operations, hb] at hres
      rw [List.drop_zero]
      exact hres.symm
  · by_cases hb : sess.stderrLines.drop banner_size = []
    · simp [remote_operations, h0, hb] at hres
    · simp [remote_operations, h0, hb] at hres
      exact hres.symm

/-! ## Claims about remote_operations -/

/-- C2: the claim says that in either mode a raised `RemoteCommandError`'s
message contains the emitted error text. In tty mode it does not: line 87
applies `'\n'.join` to `error`, which `communicate()` yields as a *string*,
so the join interleaves a newline between every pair of characters; for
error text "ab" the call raises with message "a\nb", which does not contain
"ab". (In un-mocked runs the tty-mode `Popen` of lines 75-76 pipes neither
stdout nor stderr, so `communicate()` returns `None` for `error` and no
error is ever raised at all.) -/
theorem C2_tty_message_garbled :
    (remote_operations ["systemctl restart foo"] true true 0
        { stdoutLines := [], stderrLines := [], commResult := "", commError := "ab" }).result
      = .error "a\nb" ∧
    occursIn "ab" "a\nb" = false :=
  ⟨rfl, by decide⟩

/-- C3 counterexample: the claim says no returned non-tty line contains the
benign-warning substrings *anywhere in the line*. But line 93 uses
`re.match`, which anchors at the start of the line, so a line with a single
leading space before "Warning: no access to tty" passes the filter and is
returned, though it contains "no access to tty". -/
theorem C3_counterexample :
    (remote_operations [] true false 0
        { stdoutLines := [" Warning: no access to tty"], stderrLines := [],
          commResult := "", commError := "" }).result
      = .ok (.lines [" Warning: no access to tty"]) ∧
    occursIn "no access to tty" " Warning: no access to tty" = true :=
  ⟨rfl, by decide⟩

/-- C3 amended: in non-tty mode no returned line *begins with*
"Warning: no access to tty" or "Thus no job control in this shell"; a line
containing those substrings elsewhere may appear in the output. -/
theorem C3_amended (commands : List String) (catch_errors : Bool) (banner_size : Nat)
    (sess : Session) (ls : List String) (line : String)
    (hres : (remote_operations commands catch_errors false banner_size sess).result
      = .ok (.lines ls))
    (hmem : line ∈ ls) :
    startsWithLit warnTty line = false ∧ startsWithLit warnJob line = false := by
  have hls := result_lines_eq commands catch_errors banner_size sess ls hres
  rw [hls] at hmem
  have hk : keptLine line = true := (List.mem_filter.mp hmem).2
  simp [keptLine] at hk
  exact hk

/-- C3 witness: a concrete non-tty run returns an ordinary line, and that
line starts with neither warning literal. -/
theorem C3_witness :
    startsWithLit warnTty "uptime: ok" = false ∧
      startsWithLit warnJob "uptime: ok" = false :=
  C3_amended [] false 0
    { stdoutLines := ["uptime: ok"], stderrLines := [], commResult := "", commError := "" }
    ["uptime: ok"] "uptime: ok" rfl (by simp)

/-- C4 counterexample: the claim says the first `banner_size` stderr lines
never appear in a raised message *regardless of their content*. But the
slice of line 100 removes positions, not text: when a banner line's text
also occurs past the banner — here stderr is ["oops", "oops"] with
`banner_size = 1` — the raised message is "oops", in which the first line
appears. -/
theorem C4_counterexample :
    (remote_operations [] true false 1
        { stdoutLines := [], stderrLines := ["oops", "oops"], commResult := "",
          commError := "" }).result
      = .error "oops" ∧
    occursIn "oops" "oops" = true :=
  ⟨rfl, by decide⟩

/-- C4 amended: in non-tty mode with error-checking on, a raised
`RemoteCommandError`'s message is exactly the newline-join of the stderr
lines after the first `banner_size`, so a line among the first `banner_size`
appears in the message only when its text also occurs in that join (in tty
mode `banner_size` is never applied). -/
theorem C4_amended (commands : List String) (banner_size : Nat) (sess : Session)
    (msg line : String)
    (hres : (remote_operations commands true false banner_size sess).result = .error msg)
    (_hmem : line ∈ sess.stderrLines.take banner_size)
    (hnot : occursIn line (joinLines (sess.stderrLines.drop banner_size)) = false) :
    msg = joinLines (sess.stderrLines.drop banner_size) ∧ occursIn line msg = false := by
  have h1 := result_error_eq commands banner_size sess msg hres
  exact ⟨h1, h1 ▸ hnot⟩

/-- C4 witness: with a one-line banner whose text does not recur, the raised
message is the remaining line and the banner line does not appear in it. -/
theorem C4_witness :
    "real error" = joinLines (["banner line", "real error"].drop 1) ∧
      occursIn "banner line" "real error" = false := by
  have h := C4_amended [] 1
    { stdoutLines := [], stderrLines := ["banner line", "real error"], commResult := "",
      commError := "" } "real error" "banner line" rfl (by simp) (by decide)
  exact h

/-- C7 counterexample: the claim says exactly the N commands are written to
the session's stdin. In tty mode line 85 additionally passes `'logout\n'` to
`communicate`, which writes it to stdin: for the one-command list ["ls"] the
written lines are ["ls\n", "logout\n"], not just ["ls\n"]. -/
theorem C7_counterexample :
    (remote_operations ["ls"] true true 0
        { stdoutLines := [], stderrLines := [], commResult := "", commError := "" }).written
      ≠ ["ls\n"] := by
  decide

/-- C7 amended: the N commands are written in input order, each terminated
by a newline; in tty mode exactly one automatic "logout" line follows them,
in non-tty mode nothing else is written. And when the session emits no
error text, the call returns its output without raising, whatever the
error-checking flag. -/
theorem C7_amended (commands : List String) (catch_errors tty_session : Bool)
    (banner_size : Nat) (sess : Session)
    (h1 : tty_session = true → sess.commError = "")
    (h2 : tty_session = false → sess.stderrLines = []) :
    (remote_operations commands catch_errors tty_session banner_size sess).written
        = commands.map (fun c => c ++ "\n")
          ++ (if tty_session then ["logout\n"] else []) ∧
    (remote_operations commands catch_errors tty_session banner_size sess).result
        = .ok (if tty_session then OutVal.str sess.commResult
               else OutVal.lines (sess.stdoutLines.filter keptLine)) := by
  cases tty_session with
  | true =>
    have he := h1 rfl
    cases catch_errors <;> simp [remote_operations, he]
  | false =>
    have he := h2 rfl
    cases catch_errors <;> simp [remote_operations, he]

/-- C7 witness: a concrete two-command non-tty run with empty stderr writes
the two newline-terminated commands and returns its stdout lines. -/
theorem C7_witness :
    (remote_operations ["echo a", "echo b"] true false 0
        { stdoutLines := ["a", "b"], stderrLines := [], commResult := "",
          commError := "" }).written
      = ["echo a\n", "echo b\n"] ∧
    (remote_operations ["echo a", "echo b"] true false 0
        { stdoutLines := ["a", "b"], stderrLines := [], commResult := "",
          commError := "" }).result
      = .ok (.lines ["a", "b"]) := by
  have h := C7_amended ["echo a", "echo b"] true false 0
    { stdoutLines := ["a", "b"], stderrLines := [], commResult := "", commError := "" }
    (by simp) (fun _ => rfl)
  exact h

/-- C10: with `catch_errors=False` the call never raises: in either mode the
result is the ok value (tty: the communicate output string; non-tty: the
filtered stdout lines). Moreover in non-tty mode the stderr stream is never
read: the whole outcome is unchanged under any replacement of the stderr
content. -/
theorem C10_no_catch_no_raise (commands : List String) (tty_session : Bool)
    (banner_size : Nat) (sess : Session) (otherErr : List String) :
    (remote_operations commands false tty_session banner_size sess).result
        = .ok (if tty_session then OutVal.str sess.commResult
               else OutVal.lines (sess.stdoutLines.filter keptLine)) ∧
    remote_operations commands false false banner_size sess
        = remote_operations commands false false banner_size
            { sess with stderrLines := otherErr } := by
  refine ⟨?_, rfl⟩
  cases tty_session <;> simp [remote_operations]

/-! ## Claims about pick_port -/

/-- C1: the claim says that on a listing whose joined text contains ":22" and
":80" and the range [20, 25), `pick_port` returns 20. It does not: line 68
passes the *list* `results` to `re.search`, so the very first loop iteration
raises `TypeError` instead of testing the candidate's decimal string against
the joined text; evaluating the embedded code on the claim's input yields
that exception, not the port 20. -/
theorem C1_scan_raises_type_error :
    pick_port (some "host1") 20 25
        ["tcp 0 0 0.0.0.0:22 0.0.0.0:* LISTEN", "tcp 0 0 0.0.0.0:80 0.0.0.0:* LISTEN"]
      = .error .typeErrorSearchOnList := by
  rfl

/-- C5: whenever the joined listener listing contains "command not found",
`pick_port` raises `NoCommandFoundError` — whose message contains the host —
and so never returns a port or `None`, for every host and range. -/
theorem C5_command_not_found_raises (host : Option String) (port_min port_max : Int)
    (results : List String)
    (h : occursIn "command not found" (String.intercalate ", " results) = true) :
    pick_port host port_min port_max results
        = .error (.noCommandFound (noCmdMsg host)) ∧
      occursIn (hostStr host) (noCmdMsg host) = true := by
  refine ⟨by simp [pick_port, h], ?_⟩
  have hmsg : (noCmdMsg host).toList
      = "netstats is not installed on the ".toList ++ ((hostStr host).toList
        ++ " device. Please install it and try again".toList) := by
    simp [noCmdMsg, String.toList]
  have hinf : (hostStr host).toList <:+: (noCmdMsg host).toList := by
    rw [hmsg]
    exact ⟨"netstats is not installed on the ".toList,
      " device. Please install it and try again".toList, by simp⟩
  simpa [occursIn] using hinf

/-- C5 witness: a concrete listing containing "command not found" makes
`pick_port` raise the `NoCommandFoundError` naming the host. -/
theorem C5_witness :
    pick_port (some "host9") 5 6 ["sh: netstat: command not found"]
        = .error (.noCommandFound (noCmdMsg (some "host9"))) ∧
      occursIn (hostStr (some "host9")) (noCmdMsg (some "host9")) = true :=
  C5_command_not_found_raises (some "host9") 5 6 ["sh: netstat: command not found"]
    (by decide)

/-- C6: the claim says that when every port of the range occurs in the
listing, `pick_port` returns `None`. It does not for any non-empty range:
line 68 passes the list `results` to `re.search`, so the first iteration
raises `TypeError` before any candidate can be rejected; here the range
[22, 23) is fully covered by the listing, yet the call raises instead of
returning `None`. (The declared `NoPortsFound` error is indeed raised by no
statement of the source — `PickErr` needs no constructor for it.) -/
theorem C6_full_range_raises_type_error :
    pick_port (some "host2") 22 23 ["tcp 0 0 127.0.0.1:22 0.0.0.0:* LISTEN"]
      = .error .typeErrorSearchOnList := by
  rfl

/-- C8: `pick_port` is a deterministic function of host, range, and the
(mocked) listener listing — two calls on identical listings agree. -/
theorem C8_idempotent (host : Option String) (port_min port_max : Int)
    (l₁ l₂ : List String) (h : l₁ = l₂) :
    pick_port host port_min port_max l₁ = pick_port host port_min port_max l₂ := by
  rw [h]

/-- C8 witness: two calls on the same concrete listing agree. -/
theorem C8_witness :
    pick_port (some "host3") 30 31 ["tcp 0 0 :::30 LISTEN"]
      = pick_port (some "host3") 30 31 ["tcp 0 0 :::30 LISTEN"] :=
  C8_idempotent (some "host3") 30 31 ["tcp 0 0 :::30 LISTEN"]
    ["tcp 0 0 :::30 LISTEN"] rfl

/-- C9: line 54 takes the local-subprocess branch exactly when the host is
`None` or contains "local" as a substring — so "mylocaldomain.com" is treated
as the local machine while an ordinary remote name is not. -/
theorem C9_local_branch_condition :
    (∀ host : Option String,
      usesLocalBranch host = true ↔
        host = none ∨ ∃ s, host = some s ∧ occursIn "local" s = true) ∧
    usesLocalBranch (some "mylocaldomain.com") = true ∧
    usesLocalBranch (some "remote-7.example.com") = false := by
  refine ⟨?_, by rfl, by rfl⟩
  intro host
  cases host with
  | none => simp [usesLocalBranch]
  | some s => simp [usesLocalBranch]

end PyUtil
